import Mathlib

/-!
Shallow embedding of the deduplication-and-download pipeline of the
autoMusicDown repository (src/downloader.py, src/mysql_check.py,
src/navidrome.py, src/main.py), together with theorems settling the
frozen claims about it.

Conventions of the embedding:
* Python `str` is modelled by `String` (a sequence of Unicode code points);
  character-level algorithms work on `List Char` via `String.toList`.
* Network and filesystem effects are modelled as oracle fields of explicit
  environment records: an HTTP/JSON response is an `Except String _` value
  (`Except.error` models a raised transport/parse exception), the local
  filesystem is a partial map `String → Option Nat` from path to file size.
* Machine integers do not overflow in any code modelled here; sizes and
  identifiers are `Nat`/`Int`.
-/

namespace AutoMusicDown

/-! ### Character and string utilities shared by the embedded modules -/

/-- The whitespace class used by Python's `str.strip()` and by `\s` in the
regular expressions of `mysql_check.py` (ASCII whitespace plus the
ideographic space; other exotic Unicode whitespace never occurs in the
inputs the claims mention). -/
def pyWsChar (c : Char) : Bool :=
  c = ' ' ∨ c = '\t' ∨ c = '\n' ∨ c = '\r' ∨ c = '\x0b' ∨ c = '\x0c' ∨ c = '　'

/-- Strip characters satisfying `p` from both ends of a character list;
models Python `str.strip(chars)`. -/
def stripBy (p : Char → Bool) (l : List Char) : List Char :=
  ((l.dropWhile p).reverse.dropWhile p).reverse

/-- Python `str.strip()` (no argument): strip whitespace from both ends. -/
def pyStrip (l : List Char) : List Char := stripBy pyWsChar l

/-- Python `str.lower()`; `Char.toLower` lowers ASCII letters and leaves
CJK characters unchanged, which coincides with Python on every string the
embedded code handles. -/
def strLower (s : String) : String := (s.toList.map Char.toLower).asString

/-- Contiguous-subsequence test on character lists, scanning left to right. -/
def containsSub (pat : List Char) : List Char → Bool
  | [] => pat.isEmpty
  | c :: rest => pat.isPrefixOf (c :: rest) || containsSub pat rest

/-- Python's `pat in s` substring test. -/
def strContains (s pat : String) : Bool := containsSub pat.toList s.toList

/-! ### `SongDownloader._sanitize_filename` (src/downloader.py:134-154) -/

/-- The character class `[<>:"/\\|?*]` of illegal filename characters. -/
def isIllegalFilenameChar (c : Char) : Bool :=
  c = '<' ∨ c = '>' ∨ c = ':' ∨ c = '"' ∨ c = '/' ∨ c = '\\' ∨ c = '|' ∨ c = '?' ∨ c = '*'

/-- Embeds `re.sub(r'[<>:"/\\|?*]', '_', filename)`: replace each illegal
character by an underscore. -/
def replaceIllegal (l : List Char) : List Char :=
  l.map fun c => if isIllegalFilenameChar c then '_' else c

/-- The character set of `filename.strip(' .')`. -/
def isSpaceOrDot (c : Char) : Bool := c = ' ' ∨ c = '.'

/-- Embeds `SongDownloader._sanitize_filename` on the code-point sequence:
replace illegal characters by `_`, strip leading/trailing spaces and dots,
truncate to 200 characters, and fall back to `"unknown"` when empty. -/
def sanitizeChars (l : List Char) : List Char :=
  let cleaned := stripBy isSpaceOrDot (replaceIllegal l)
  let truncated := if 200 < cleaned.length then cleaned.take 200 else cleaned
  if truncated = [] then "unknown".toList else truncated

/-- Embeds `SongDownloader._sanitize_filename` as a `String` function. -/
def sanitizeFilename (s : String) : String := (sanitizeChars s.toList).asString

/-! Helper lemmas about `dropWhile` and `stripBy`. -/

theorem dropWhile_head_not {p : α → Bool} :
    ∀ {l : List α} {a : α} {t : List α}, l.dropWhile p = a :: t → p a = false := by
  intro l
  induction l with
  | nil => intro a t h; simp at h
  | cons c cs ih =>
    intro a t h
    by_cases hc : p c
    · rw [List.dropWhile_cons_of_pos hc] at h
      exact ih h
    · rw [List.dropWhile_cons_of_neg hc] at h
      cases h
      exact Bool.eq_false_iff.mpr hc

theorem dropWhile_idem {p : α → Bool} (l : List α) :
    (l.dropWhile p).dropWhile p = l.dropWhile p := by
  cases h : l.dropWhile p with
  | nil => simp
  | cons a t =>
    have := dropWhile_head_not h
    rw [List.dropWhile_cons_of_neg (by simp [this])]

theorem dropWhile_getLast? {p : α → Bool} {l : List α}
    (h : l.dropWhile p ≠ []) : (l.dropWhile p).getLast? = l.getLast? := by
  obtain ⟨t, ht⟩ := List.dropWhile_suffix (l := l) p
  conv_rhs => rw [← ht]
  rw [List.getLast?_append]
  cases hd : (l.dropWhile p).getLast? with
  | none => exact absurd (List.getLast?_eq_none_iff.mp hd) h
  | some a => simp

theorem stripBy_head_not {p : Char → Bool} {l : List Char} {a : Char} {t : List Char}
    (h : stripBy p l = a :: t) : p a = false := by
  unfold stripBy at h
  have h1 : ((l.dropWhile p).reverse.dropWhile p).getLast? = some a := by
    rw [← List.head?_reverse, h]
    rfl
  have hne : (l.dropWhile p).reverse.dropWhile p ≠ [] := by
    intro he; rw [he] at h1; simp at h1
  rw [dropWhile_getLast? hne, List.getLast?_reverse] at h1
  cases hd : l.dropWhile p with
  | nil => rw [hd] at h1; simp at h1
  | cons b s =>
    rw [hd] at h1
    simp only [List.head?_cons, Option.some.injEq] at h1
    exact h1 ▸ dropWhile_head_not hd

theorem stripBy_idem (p : Char → Bool) (l : List Char) :
    stripBy p (stripBy p l) = stripBy p l := by
  have h1 : (stripBy p l).dropWhile p = stripBy p l := by
    cases h : stripBy p l with
    | nil => simp
    | cons a t => rw [List.dropWhile_cons_of_neg (by simp [stripBy_head_not h])]
  show ((((stripBy p l).dropWhile p).reverse).dropWhile p).reverse = stripBy p l
  rw [h1]
  unfold stripBy
  rw [List.reverse_reverse, dropWhile_idem]

theorem mem_stripBy {p : Char → Bool} {l : List Char} {c : Char}
    (h : c ∈ stripBy p l) : c ∈ l := by
  unfold stripBy at h
  rw [List.mem_reverse] at h
  have h2 := (List.dropWhile_sublist (l := (l.dropWhile p).reverse) p).mem h
  rw [List.mem_reverse] at h2
  exact (List.dropWhile_sublist p).mem h2

theorem mem_replaceIllegal {l : List Char} {c : Char} (h : c ∈ replaceIllegal l) :
    isIllegalFilenameChar c = false := by
  unfold replaceIllegal at h
  obtain ⟨a, _, rfl⟩ := List.mem_map.mp h
  by_cases ha : isIllegalFilenameChar a
  · simp [ha]; decide
  · simp [ha]

theorem replaceIllegal_id {l : List Char}
    (h : ∀ c ∈ l, isIllegalFilenameChar c = false) : replaceIllegal l = l := by
  unfold replaceIllegal
  have := List.map_congr_left (f := fun c => if isIllegalFilenameChar c then '_' else c)
    (g := id) (l := l) ?_
  · simpa using this
  · intro a ha
    simp [h a ha]

theorem sanitizeChars_no_illegal {l : List Char} {c : Char}
    (h : c ∈ sanitizeChars l) : isIllegalFilenameChar c = false := by
  unfold sanitizeChars at h
  by_cases he : (if 200 < (stripBy isSpaceOrDot (replaceIllegal l)).length then
      (stripBy isSpaceOrDot (replaceIllegal l)).take 200 else
      stripBy isSpaceOrDot (replaceIllegal l)) = []
  · rw [if_pos he] at h
    revert c
    decide
  · rw [if_neg he] at h
    by_cases hl : 200 < (stripBy isSpaceOrDot (replaceIllegal l)).length
    · rw [if_pos hl] at h
      exact mem_replaceIllegal (mem_stripBy ((List.take_sublist _ _).mem h))
    · rw [if_neg hl] at h
      exact mem_replaceIllegal (mem_stripBy h)

theorem sanitizeChars_of_cleaned_short {l : List Char}
    (hne : stripBy isSpaceOrDot (replaceIllegal l) ≠ [])
    (hlen : (stripBy isSpaceOrDot (replaceIllegal l)).length ≤ 200) :
    sanitizeChars l = stripBy isSpaceOrDot (replaceIllegal l) := by
  simp only [sanitizeChars]
  have h1 : ¬ 200 < (stripBy isSpaceOrDot (replaceIllegal l)).length := by omega
  rw [if_neg h1, if_neg hne]

/-- Claim C3 counterexample input: 199 letters, a dot, and one more letter.
It has no illegal characters and no surrounding spaces or dots, but
truncation to 200 characters leaves a trailing dot, which a second
application of the sanitizer strips again. -/
def badFilename : List Char := List.replicate 199 'a' ++ ['.', 'a']

set_option maxRecDepth 40000 in
/-- Claim C3 (counterexample): `_sanitize_filename` is NOT idempotent.  On a
201-character name whose 200th character is a dot, the first application
truncates to 200 characters ending in a dot, and the second application
strips that dot, giving a different (199-character) result. -/
theorem sanitize_not_idempotent_counterexample :
    sanitizeChars (sanitizeChars badFilename) ≠ sanitizeChars badFilename := by
  decide

/-- Claim C3 (amended): the sanitizer's output never contains any of the
illegal characters, is at most 200 characters long, is never empty, falls
back to the literal string "unknown" exactly when the cleaned
(replaced-and-stripped) input is empty, and the sanitizer is idempotent on
every input whose cleaned form is at most 200 characters long (i.e.
whenever the final truncation step does not fire; truncation may expose a
trailing space or dot, which is the only source of non-idempotence). -/
theorem sanitize_properties_amended (l : List Char) :
    (∀ c ∈ sanitizeChars l, isIllegalFilenameChar c = false) ∧
    (sanitizeChars l).length ≤ 200 ∧
    sanitizeChars l ≠ [] ∧
    (stripBy isSpaceOrDot (replaceIllegal l) = [] →
      sanitizeChars l = "unknown".toList) ∧
    ((stripBy isSpaceOrDot (replaceIllegal l)).length ≤ 200 →
      sanitizeChars (sanitizeChars l) = sanitizeChars l) := by
  refine ⟨fun c hc => sanitizeChars_no_illegal hc, ?_, ?_, ?_, ?_⟩
  · simp only [sanitizeChars]
    by_cases hl : 200 < (stripBy isSpaceOrDot (replaceIllegal l)).length
    · rw [if_pos hl]
      split
      · decide
      · simp [List.length_take]
    · rw [if_neg hl]
      split
      · decide
      · omega
  · simp only [sanitizeChars]
    split <;> split
    · decide
    · assumption
    · decide
    · assumption
  · intro hc
    simp only [sanitizeChars]
    rw [hc]
    simp
  · intro hlen
    by_cases hne : stripBy isSpaceOrDot (replaceIllegal l) = []
    · have h1 : sanitizeChars l = "unknown".toList := by
        unfold sanitizeChars
        rw [hne]
        simp
      rw [h1]
      decide
    · have h1 : sanitizeChars l = stripBy isSpaceOrDot (replaceIllegal l) :=
        sanitizeChars_of_cleaned_short hne hlen
      have h2 : replaceIllegal (sanitizeChars l) = sanitizeChars l :=
        replaceIllegal_id fun c hc => sanitizeChars_no_illegal hc
      rw [h1] at h2
      rw [h1, sanitizeChars_of_cleaned_short (l := stripBy isSpaceOrDot (replaceIllegal l))
        (by rw [h2, stripBy_idem]; exact hne)
        (by rw [h2, stripBy_idem]; exact hlen), h2, stripBy_idem]

/-- Witness for the amended claim C3 at a concrete short input. -/
theorem sanitize_properties_amended_witness :
    sanitizeChars (sanitizeChars " my song.mp3 ".toList) =
      sanitizeChars " my song.mp3 ".toList :=
  (sanitize_properties_amended " my song.mp3 ".toList).2.2.2.2 (by decide)

/-! ### Download engine data model (src/downloader.py) -/

/-- Embeds `MusicInfo` dataclass (src/downloader.py:41-57).  The ad-hoc dict-shaped
music info built inside `download_song` is modelled by the same record
(`publishTime` then holds the raw timestamp rendered as a string, and
`duration` the raw milliseconds, exactly the values the dict stores). -/
structure MusicInfo where
  id : Int
  name : String
  publishTime : String
  artists : String
  album : String
  picUrl : String
  duration : Nat
  trackNumber : Nat
  downloadUrl : String
  fileType : String
  fileSize : Nat
  lyric : String
  tlyric : String
deriving DecidableEq

/-- Embeds `DownloadResult` dataclass (src/downloader.py:60-68).  The `data` field
holding the JSON response payload is display-only and is omitted from the
embedding; no claim refers to its contents. -/
structure DownloadResult where
  success : Bool
  filePath : Option String
  fileSize : Nat
  errorMessage : String
  musicInfo : Option MusicInfo
deriving DecidableEq

/-- A failed `DownloadResult(success=False, error_message=msg)`. -/
def mkFail (msg : String) : DownloadResult := ⟨false, none, 0, msg, none⟩

/-- The `data[0]` entry of a `get_song_url` response: url, container type
and size. -/
structure UrlData where
  url : String
  ftype : String
  size : Nat
deriving DecidableEq

/-- The `songs[0]` entry of a `get_song_detail` response, with the
dictionary defaults (`'未知歌曲'`, `'未知专辑'`, …) already applied by the
oracle. -/
structure SongDetailData where
  name : String
  arNames : List String
  albumName : String
  picUrl : String
  dt : Nat
  no : Nat
  publishTime : Int
deriving DecidableEq

/-- Environment of a `SongDownloader` run for one `(music_id, quality)`
pair: the upstream API responses, the local filesystem, and the helpers
whose exact value the claims do not constrain.
* `songUrlData`: `get_song_url` — `Except.error` is a raised
  `APIException`, `Except.ok none` a response with empty `data`.
* `songDetail`: `get_song_detail` — likewise, `Except.ok none` models a
  response without a usable `songs[0]`.
* `lyricRes`: `get_lyric`, yielding the `(lyric, tlyric)` strings.
* `tsToDate`: `_timestamp_str_to_date` (a pure calendar-library rendering,
  treated as an oracle).
* `fs`: the download directory contents, path ↦ size.
* `hashEq`: the outcome of `_compare_file_hash` for a path (the claims
  only count hash comparisons, never their value).
* `fetchAudio`: outcome of the `requests.get(download_url, stream=True)`
  audio transfer.
* `writtenSize`: `stat().st_size` of a freshly written (and tagged) file. -/
structure DlEnv where
  songUrlData : Except String (Option UrlData)
  songDetail : Except String (Option SongDetailData)
  lyricRes : Except String (String × String)
  tsToDate : Int → String
  downloadDir : String
  fs : String → Option Nat
  hashEq : String → Bool
  fetchAudio : Except String Unit
  writtenSize : Nat

/-- Embeds `SongDownloader._determine_file_extension` (src/downloader.py:182-209). -/
def determineFileExtension (url : String) (contentType : String) : String :=
  let u := strLower url
  if strContains u ".flac" then ".flac"
  else if strContains u ".mp3" then ".mp3"
  else if strContains u ".m4a" then ".m4a"
  else
    let ct := strLower contentType
    if strContains ct "flac" then ".flac"
    else if strContains ct "mpeg" ∨ strContains ct "mp3" then ".mp3"
    else if strContains ct "mp4" ∨ strContains ct "m4a" then ".m4a"
    else ".mp3"

/-- Embeds `SongDownloader.get_music_info` (src/downloader.py:211-278), paired
with the number of upstream API requests it issued (`get_song_url`,
`get_song_detail`, `get_lyric`).  `Except.error` models the raised
`DownloadException`; note that the code's own `DownloadException`s are
re-wrapped by its catch-all `except Exception` clause. -/
def getMusicInfoC (env : DlEnv) (musicId : Int) (quality : String) :
    Except String MusicInfo × Nat :=
  match env.songUrlData with
  | .error e => (.error ("API调用失败: " ++ e), 1)
  | .ok none =>
    (.error ("获取音乐信息时发生错误: 无法获取音乐ID " ++ toString musicId ++ " 的播放链接"), 1)
  | .ok (some ud) =>
    if ud.url = "" then
      (.error ("获取音乐信息时发生错误: 音乐ID " ++ toString musicId ++ " 无可用的下载链接"), 1)
    else
      match env.songDetail with
      | .error e => (.error ("API调用失败: " ++ e), 2)
      | .ok none =>
        (.error ("获取音乐信息时发生错误: 无法获取音乐ID " ++ toString musicId ++ " 的详细信息"), 2)
      | .ok (some det) =>
        match env.lyricRes with
        | .error e => (.error ("API调用失败: " ++ e), 3)
        | .ok lt =>
          let artists := String.intercalate "/" det.arNames
          let artists := if artists = "" then "未知艺术家" else artists
          (.ok ⟨musicId, det.name, env.tsToDate det.publishTime, artists, det.albumName,
            det.picUrl, det.dt / 1000, det.no, ud.url, strLower ud.ftype, ud.size,
            lt.1, lt.2⟩, 3)

/-- Embeds `SongDownloader._verify_file_integrity` (src/downloader.py:509-537)
paired with the number of hash comparisons performed.  The Python float
test `abs(file_size - expected_size) / expected_size < 0.01` is modelled
exactly over the rationals: for `expected_size > 0` it is equivalent to
`100 * |file_size - expected_size| < expected_size`.  `hashMatches` is the
outcome `_compare_file_hash(file_path, music_info)` would produce. -/
def verifyFileIntegrityCount (hashMatches : Bool) (fileSize expectedSize : Nat) :
    Bool × Nat :=
  if 0 < expectedSize then
    if 100 * Nat.dist fileSize expectedSize < expectedSize then (true, 0)
    else (hashMatches, 1)
  else (hashMatches, 1)

/-- Embeds `_verify_file_integrity`, result only. -/
def verifyFileIntegrity (hashMatches : Bool) (fileSize expectedSize : Nat) : Bool :=
  (verifyFileIntegrityCount hashMatches fileSize expectedSize).1

/-- The canonical metadata-derived download path used by
`is_song_already_downloaded_by_id`, `download_music_file` and the
already-downloaded branch of `download_song`:
`download_dir / sanitize(artists - name) + ext(download_url)`. -/
def dlPath (env : DlEnv) (mi : MusicInfo) : String :=
  env.downloadDir ++ "/" ++ sanitizeFilename (mi.artists ++ " - " ++ mi.name) ++
    determineFileExtension mi.downloadUrl ""

/-- Embeds `SongDownloader.is_song_already_downloaded_by_id`
(src/downloader.py:472-507) paired with the API requests it issued; all
exceptions (including a failing `get_music_info`) are caught and yield
`False`. -/
def isAlreadyDownloadedC (env : DlEnv) (songId : Int) (quality : String) : Bool × Nat :=
  match getMusicInfoC env songId quality with
  | (.error _, c) => (false, c)
  | (.ok mi, c) =>
    let base := env.downloadDir ++ "/" ++ sanitizeFilename (mi.artists ++ " - " ++ mi.name)
    ([".mp3", ".flac", ".m4a"].any fun ext =>
      match env.fs (base ++ ext) with
      | none => false
      | some sz => verifyFileIntegrity (env.hashEq (base ++ ext)) sz mi.fileSize, c)

/-- Embeds `SongDownloader.download_music_file` (src/downloader.py:608-673) as
`(outcome, api_requests, audio_transfers)`.  `Except.error` is the
re-raised `DownloadException` from `get_music_info`; a transport error of
the audio transfer is converted to a failed result.  Tag writing and the
hash-cache update after a fresh download do not change the returned
value. -/
def downloadMusicFileC (env : DlEnv) (musicId : Int) (quality : String) :
    Except String DownloadResult × Nat × Nat :=
  match getMusicInfoC env musicId quality with
  | (.error e, c) => (.error e, c, 0)
  | (.ok mi, c) =>
    let path := dlPath env mi
    match env.fs path with
    | some sz => (.ok ⟨true, some path, sz, "", some mi⟩, c, 0)
    | none =>
      match env.fetchAudio with
      | .error e => (.ok (mkFail ("下载请求失败: " ++ e)), c, 1)
      | .ok _ => (.ok ⟨true, some path, env.writtenSize, "", some mi⟩, c, 1)

/-- The fixed quality set of `download_song` (src/downloader.py:292). -/
def validQualities : List String :=
  ["standard", "exhigh", "lossless", "hires", "sky", "jyeffect", "jymaster"]

/-- The final `re_format` branch of `download_song`
(src/downloader.py:377-414): in the `'json'` branch `file_path.stat()` is
called unguarded (a missing file raises, caught by the outer handler); in
the `'file'` branch a missing file yields the failed result `文件不存在`.
The JSON payload itself is display-only and omitted. -/
def finishFormatC (reFormat : String) (dictInfo : MusicInfo) (fpath : String)
    (fsNow : String → Option Nat) (c a : Nat) : DownloadResult × Nat × Nat :=
  if reFormat = "json" then
    match fsNow fpath with
    | none => (mkFail ("下载异常: stat失败: " ++ fpath), c, a)
    | some sz => (⟨true, some fpath, sz, "", some dictInfo⟩, c, a)
  else
    match fsNow fpath with
    | none => (mkFail "文件不存在", c, a)
    | some sz => (⟨true, some fpath, sz, "", some dictInfo⟩, c, a)

/-- Embeds `SongDownloader.download_song` (src/downloader.py:281-422) as
`(result, api_requests, audio_transfers)`.  Validation happens before any
upstream request; the already-downloaded branch returns without any audio
transfer; the normal branch re-fetches detail and url, builds the
dict-shaped music info, removes (not replaces) illegal filename
characters, and downloads through `download_music_file` only when no file
exists at the dict-derived path.  All raised exceptions are converted by
the outer handler into a failed result prefixed `下载异常: `. -/
def downloadSongC (env : DlEnv) (musicId : Int) (quality : String)
    (reFormat : String) : DownloadResult × Nat × Nat :=
  if musicId ≤ 0 then (mkFail "无效的音乐ID，必须是正整数", 0, 0)
  else if validQualities.contains quality = false then
    (mkFail ("无效的音质参数，支持: " ++ String.intercalate ", " validQualities), 0, 0)
  else if ¬ (reFormat = "file" ∨ reFormat = "json") then
    (mkFail "返回格式只支持 'file' 或 'json'", 0, 0)
  else
    match isAlreadyDownloadedC env musicId quality with
    | (true, c1) =>
      match getMusicInfoC env musicId quality with
      | (.error e, c2) => (mkFail ("下载异常: " ++ e), c1 + c2, 0)
      | (.ok mi, c2) =>
        let path := dlPath env mi
        (⟨true, some path, (env.fs path).getD 0, "", some mi⟩, c1 + c2, 0)
    | (false, c1) =>
      match env.songDetail with
      | .error e => (mkFail ("下载异常: " ++ e), c1 + 1, 0)
      | .ok none => (mkFail "未找到音乐信息", c1 + 1, 0)
      | .ok (some det) =>
        match env.songUrlData with
        | .error e => (mkFail ("下载异常: " ++ e), c1 + 2, 0)
        | .ok none => (mkFail "无法获取音乐下载链接，可能是版权限制或音质不支持", c1 + 2, 0)
        | .ok (some ud) =>
          if ud.url = "" then
            (mkFail "无法获取音乐下载链接，可能是版权限制或音质不支持", c1 + 2, 0)
          else
            let artistStr := String.intercalate "/" det.arNames
            let dictInfo : MusicInfo := ⟨musicId, det.name, toString det.publishTime,
              artistStr, det.albumName, det.picUrl, det.dt, det.no, ud.url, ud.ftype,
              ud.size, "", ""⟩
            let safeName := (artistStr ++ " - " ++ det.name).toList.filter
              (fun ch => isIllegalFilenameChar ch = false)
            let path0 := env.downloadDir ++ "/" ++ safeName.asString ++ "." ++ ud.ftype
            match env.fs path0 with
            | some _ => finishFormatC reFormat dictInfo path0 env.fs (c1 + 2) 0
            | none =>
              match downloadMusicFileC env musicId quality with
              | (.error e, c2, a2) => (mkFail ("下载异常: " ++ e), c1 + 2 + c2, a2)
              | (.ok dres, c2, a2) =>
                if dres.success then
                  let fpath := dres.filePath.getD ""
                  let fsNow := fun p => if p = fpath then some dres.fileSize else env.fs p
                  finishFormatC reFormat dictInfo fpath fsNow (c1 + 2 + c2) a2
                else
                  (⟨false, none, 0, "下载失败: " ++ dres.errorMessage, some dictInfo⟩,
                    c1 + 2 + c2, a2)

/-- A minimal environment (empty upstream responses, empty filesystem)
used to instantiate theorems at concrete inputs. -/
def trivialDlEnv : DlEnv :=
  ⟨.ok none, .ok none, .ok ("", ""), fun _ => "", "DL", fun _ => none,
   fun _ => false, .ok (), 0⟩

/-- Claim C4: the Integrity Verifier accepts a file whose size is within
1% relative tolerance of a positive expected size without any hash
comparison (and then its verdict does not depend on the hash oracle at
all); only when the size is outside tolerance, or the expected size is
not positive, does it fall back to exactly one hash comparison. -/
theorem verify_integrity_size_tolerance (hashMatches : Bool) (fileSize expectedSize : Nat) :
    (0 < expectedSize → 100 * Nat.dist fileSize expectedSize < expectedSize →
      verifyFileIntegrityCount hashMatches fileSize expectedSize = (true, 0)) ∧
    (0 < expectedSize → expectedSize ≤ 100 * Nat.dist fileSize expectedSize →
      verifyFileIntegrityCount hashMatches fileSize expectedSize = (hashMatches, 1)) ∧
    (expectedSize = 0 →
      verifyFileIntegrityCount hashMatches fileSize expectedSize = (hashMatches, 1)) ∧
    (0 < expectedSize → 100 * Nat.dist fileSize expectedSize < expectedSize →
      ∀ hashOther : Bool, verifyFileIntegrityCount hashMatches fileSize expectedSize =
        verifyFileIntegrityCount hashOther fileSize expectedSize) := by
  refine ⟨?_, ?_, ?_, ?_⟩
  · intro h1 h2
    unfold verifyFileIntegrityCount
    rw [if_pos h1, if_pos h2]
  · intro h1 h2
    unfold verifyFileIntegrityCount
    rw [if_pos h1, if_neg (by omega)]
  · intro h1
    unfold verifyFileIntegrityCount
    rw [if_neg (by omega)]
  · intro h1 h2 hashOther
    unfold verifyFileIntegrityCount
    rw [if_pos h1, if_pos h2, if_pos h1, if_pos h2]

/-- Witness for claim C4: a 1004-byte file against an expected 1000 bytes
is within tolerance and accepted without hashing; a 2000-byte file is
outside tolerance and goes to the hash comparison. -/
theorem verify_integrity_size_tolerance_witness :
    verifyFileIntegrityCount false 1004 1000 = (true, 0) ∧
    verifyFileIntegrityCount false 2000 1000 = (false, 1) :=
  ⟨(verify_integrity_size_tolerance false 1004 1000).1 (by decide) (by decide),
   (verify_integrity_size_tolerance false 2000 1000).2.1 (by decide) (by decide)⟩

/-- Claim C7: `download_song` rejects a non-positive music id, a quality
outside the fixed seven-element set, and a return format other than
`'file'`/`'json'`, each with an immediate failed result and zero network
requests (no API request and no audio transfer). -/
theorem download_song_validation_no_network (env : DlEnv) (musicId : Int)
    (quality reFormat : String) :
    (musicId ≤ 0 → downloadSongC env musicId quality reFormat =
      (mkFail "无效的音乐ID，必须是正整数", 0, 0)) ∧
    (0 < musicId → validQualities.contains quality = false →
      downloadSongC env musicId quality reFormat =
        (mkFail ("无效的音质参数，支持: " ++ String.intercalate ", " validQualities), 0, 0)) ∧
    (0 < musicId → validQualities.contains quality = true →
      reFormat ≠ "file" → reFormat ≠ "json" →
      downloadSongC env musicId quality reFormat =
        (mkFail "返回格式只支持 'file' 或 'json'", 0, 0)) := by
  refine ⟨?_, ?_, ?_⟩
  · intro h1
    unfold downloadSongC
    rw [if_pos h1]
  · intro h1 h2
    unfold downloadSongC
    rw [if_neg (by omega), if_pos h2]
  · intro h1 h2 h3 h4
    unfold downloadSongC
    rw [if_neg (by omega), if_neg (by rw [h2]; decide), if_pos (by simp [h3, h4])]

/-- Witness for claim C7 at concrete invalid inputs. -/
theorem download_song_validation_no_network_witness :
    downloadSongC trivialDlEnv 0 "standard" "file" =
      (mkFail "无效的音乐ID，必须是正整数", 0, 0) ∧
    downloadSongC trivialDlEnv 5 "superb" "file" =
      (mkFail ("无效的音质参数，支持: " ++ String.intercalate ", " validQualities), 0, 0) ∧
    downloadSongC trivialDlEnv 5 "standard" "xml" =
      (mkFail "返回格式只支持 'file' 或 'json'", 0, 0) :=
  ⟨(download_song_validation_no_network trivialDlEnv 0 "standard" "file").1 (by decide),
   (download_song_validation_no_network trivialDlEnv 5 "superb" "file").2.1
     (by decide) (by decide),
   (download_song_validation_no_network trivialDlEnv 5 "standard" "xml").2.2
     (by decide) (by decide) (by decide) (by decide)⟩

theorem isAlready_music_info_ok {env : DlEnv} {musicId : Int} {quality : String}
    (h : (isAlreadyDownloadedC env musicId quality).1 = true) :
    ∃ mi c, getMusicInfoC env musicId quality = (Except.ok mi, c) := by
  unfold isAlreadyDownloadedC at h
  rcases hg : getMusicInfoC env musicId quality with ⟨res, c⟩
  rw [hg] at h
  cases res with
  | error e => simp at h
  | ok mi => exact ⟨mi, c, rfl⟩

/-- Claim C2 (amended): re-invoking `download_song` for a track the
Integrity Verifier matches locally performs zero audio transfers and
returns success; the referenced path is the canonical metadata-derived
path (`sanitize(artists - name)` plus the URL-derived extension) and the
reported size is that path's current size — `0` when no file exists at
that exact path.  When the matched file's extension coincides with the
URL-derived one (the common case), this is precisely the existing file
and its current size. -/
theorem download_song_idempotent_no_refetch (env : DlEnv) (musicId : Int)
    (quality reFormat : String) (h1 : 0 < musicId)
    (h2 : validQualities.contains quality = true)
    (h3 : reFormat = "file" ∨ reFormat = "json")
    (h4 : (isAlreadyDownloadedC env musicId quality).1 = true) :
    ∃ mi c, getMusicInfoC env musicId quality = (Except.ok mi, c) ∧
      downloadSongC env musicId quality reFormat =
        (⟨true, some (dlPath env mi), (env.fs (dlPath env mi)).getD 0, "", some mi⟩,
         (isAlreadyDownloadedC env musicId quality).2 + c, 0) := by
  obtain ⟨mi, c, hg⟩ := isAlready_music_info_ok h4
  refine ⟨mi, c, hg, ?_⟩
  unfold downloadSongC
  rw [if_neg (by omega), if_neg (by rw [h2]; decide), if_neg (not_not_intro h3)]
  rcases ha : isAlreadyDownloadedC env musicId quality with ⟨b, c1⟩
  rw [ha] at h4
  simp only at h4
  subst h4
  rw [hg]

/-- The environment of the claim C2 counterexample: the upstream URL for
the requested quality carries no recognizable extension (so the derived
extension defaults to `.mp3`), while the matching local file — accepted by
the size check — is `DL/Artist - Song.flac`. -/
def exEnvC2 : DlEnv :=
  ⟨.ok (some ⟨"http://example.com/audio", "flac", 1000⟩),
   .ok (some ⟨"Song", ["Artist"], "Alb", "", 180000, 1, 0⟩),
   .ok ("", ""), fun _ => "", "DL",
   fun p => if p = "DL/Artist - Song.flac" then some 1000 else none,
   fun _ => false, .ok (), 0⟩

/-- Claim C2 (counterexample): the Integrity Verifier matches the
existing file `DL/Artist - Song.flac` (size 1000), yet `download_song`
returns a success result referencing `DL/Artist - Song.mp3` — a path with
no file behind it — and size 0, not the existing file's path and current
size as the claim states.  (No audio transfer happens, which is the part
of the claim that does hold.) -/
theorem download_song_existing_file_counterexample :
    (isAlreadyDownloadedC exEnvC2 1 "standard").1 = true ∧
    exEnvC2.fs "DL/Artist - Song.flac" = some 1000 ∧
    (downloadSongC exEnvC2 1 "standard" "file").1.filePath = some "DL/Artist - Song.mp3" ∧
    exEnvC2.fs "DL/Artist - Song.mp3" = none ∧
    (downloadSongC exEnvC2 1 "standard" "file").1.fileSize = 0 ∧
    (downloadSongC exEnvC2 1 "standard" "file").1.success = true := by
  refine ⟨by decide, by decide, by decide, by decide, by decide, by decide⟩

/-- Witness for the amended claim C2 at the concrete matched environment. -/
theorem download_song_idempotent_no_refetch_witness :
    ∃ mi c, getMusicInfoC exEnvC2 1 "standard" = (Except.ok mi, c) ∧
      downloadSongC exEnvC2 1 "standard" "file" =
        (⟨true, some (dlPath exEnvC2 mi), (exEnvC2.fs (dlPath exEnvC2 mi)).getD 0, "",
          some mi⟩, (isAlreadyDownloadedC exEnvC2 1 "standard").2 + c, 0) :=
  download_song_idempotent_no_refetch exEnvC2 1 "standard" "file" (by decide) (by decide)
    (Or.inl rfl) (by decide)

/-! ### `download_songs` and `download_batch_async` (src/downloader.py) -/

/-- A playlist track dictionary as consumed by `download_songs` and the
orchestrator: the `id` key (`none` models a missing key) plus the fields
`main.py` reads.  Equality is Python dict value equality. -/
structure Song where
  sid : Option Int
  name : String
  artistsStr : String
  album : String
deriving DecidableEq

/-- Python truthiness of `song.get("id")`: present and non-zero. -/
def songAttempted (s : Song) : Bool :=
  match s.sid with
  | some i => if i = 0 then false else true
  | none => false

/-- Whether a track would be attempted and its `download_song` call
succeed, `dl` being the per-id success oracle (the `result.success` flag
of `download_song`, which never raises). -/
def songSucceeds (dl : Int → Bool) (s : Song) : Bool :=
  match s.sid with
  | some i => if i = 0 then false else dl i
  | none => false

/-- Embeds `SongDownloader.download_songs` (src/downloader.py:425-446) as
`(successful tracks, attempted ids)`, both in iteration order.  A track
whose `id` is missing or falsy is skipped silently; a failed download is
dropped from the successful list; nothing aborts the loop. -/
def downloadSongsC (dl : Int → Bool) : List Song → List Song × List Int
  | [] => ([], [])
  | s :: rest =>
    let r := downloadSongsC dl rest
    match s.sid with
    | some i =>
      if i = 0 then r
      else ((if dl i then s :: r.1 else r.1), i :: r.2)
    | none => r

theorem downloadSongsC_spec (dl : Int → Bool) (songs : List Song) :
    downloadSongsC dl songs =
      (songs.filter (songSucceeds dl),
       (songs.filter songAttempted).filterMap Song.sid) := by
  induction songs with
  | nil => rfl
  | cons s rest ih =>
    cases hs : s.sid with
    | none =>
      simp [downloadSongsC, hs, ih, List.filter_cons, songSucceeds, songAttempted]
    | some i =>
      by_cases hi : i = 0
      · subst hi
        simp [downloadSongsC, hs, ih, List.filter_cons, songSucceeds, songAttempted]
      · by_cases hd : dl i
        · simp [downloadSongsC, hs, ih, List.filter_cons, List.filterMap_cons,
            songSucceeds, songAttempted, hi, hd]
        · simp [downloadSongsC, hs, ih, List.filter_cons, List.filterMap_cons,
            songSucceeds, songAttempted, hi, hd]

/-- Claim C5: `download_songs` iterates sequentially and independently —
it distributes over list concatenation (so no failure aborts the rest of
the batch), returns exactly the order-preserving subset of input tracks
whose attempted download succeeded, and the failed set is recoverable as
the input minus the returned set by track (value) identity, partitioning
the input. -/
theorem download_songs_successful_subset (dl : Int → Bool) (songs pre post : List Song) :
    (downloadSongsC dl songs).1 = songs.filter (songSucceeds dl) ∧
    (downloadSongsC dl songs).1.Sublist songs ∧
    (downloadSongsC dl (pre ++ post)).1 =
      (downloadSongsC dl pre).1 ++ (downloadSongsC dl post).1 ∧
    (∀ s : Song, s ∈ (downloadSongsC dl songs).1 ↔
      s ∈ songs ∧ songSucceeds dl s = true) ∧
    songs.filter (fun s => !(decide (s ∈ (downloadSongsC dl songs).1))) =
      songs.filter (fun s => !(songSucceeds dl s)) ∧
    (downloadSongsC dl songs).1.length +
      (songs.filter (fun s => !(songSucceeds dl s))).length = songs.length := by
  have h1 : (downloadSongsC dl songs).1 = songs.filter (songSucceeds dl) := by
    rw [downloadSongsC_spec]
  refine ⟨h1, ?_, ?_, ?_, ?_, ?_⟩
  · rw [h1]; exact List.filter_sublist songs
  · rw [downloadSongsC_spec, downloadSongsC_spec, downloadSongsC_spec, List.filter_append]
  · intro s
    rw [h1, List.mem_filter]
  · refine List.filter_congr ?_
    intro s hs
    rw [h1]
    by_cases hsucc : songSucceeds dl s = true
    · simp [List.mem_filter, hs, hsucc]
    · simp [List.mem_filter, hsucc]
  · rw [h1, ← List.length_eq_length_filter_add]

/-- Claim C10: a track whose `id` key is missing or falsy is skipped
silently by `download_songs`: removing it from the input changes neither
the successful list nor the attempted ids, and it never appears in the
returned successful subset. -/
theorem download_songs_skips_falsy_id (dl : Int → Bool) (pre post : List Song)
    (s : Song) (h : songAttempted s = false) :
    downloadSongsC dl (pre ++ s :: post) = downloadSongsC dl (pre ++ post) ∧
    s ∉ (downloadSongsC dl (pre ++ s :: post)).1 := by
  have hsucc : songSucceeds dl s = false := by
    unfold songAttempted at h
    unfold songSucceeds
    cases hs : s.sid with
    | none => rfl
    | some i =>
      rw [hs] at h
      by_cases hi : i = 0
      · simp [hi]
      · simp [hi] at h
  constructor
  · rw [downloadSongsC_spec, downloadSongsC_spec, List.filter_append, List.filter_append,
      List.filter_cons, List.filter_append, List.filter_append, List.filter_cons,
      hsucc, h]
    simp
  · rw [downloadSongsC_spec]
    simp only [List.mem_filter]
    intro hmem
    rw [hsucc] at hmem
    exact Bool.noConfusion hmem.2

/-- Witness for claim C10: a track with a missing id between two tracks
with ids. -/
theorem download_songs_skips_falsy_id_witness :
    downloadSongsC (fun _ => true)
        ([⟨some 1, "a", "", ""⟩] ++ (⟨none, "x", "", ""⟩ : Song) :: [⟨some 2, "b", "", ""⟩]) =
      downloadSongsC (fun _ => true) ([⟨some 1, "a", "", ""⟩] ++ [⟨some 2, "b", "", ""⟩]) ∧
    (⟨none, "x", "", ""⟩ : Song) ∉
      (downloadSongsC (fun _ => true)
        ([⟨some 1, "a", "", ""⟩] ++ (⟨none, "x", "", ""⟩ : Song) :: [⟨some 2, "b", "", ""⟩])).1 :=
  download_songs_skips_falsy_id (fun _ => true) [⟨some 1, "a", "", ""⟩]
    [⟨some 2, "b", "", ""⟩] ⟨none, "x", "", ""⟩ rfl

/-- Embeds `SongDownloader.download_batch_async` (src/downloader.py:774-805).
`task` is the outcome of one `download_music_file_async` call under the
semaphore: `Except.error` models a raised exception captured by
`asyncio.gather(..., return_exceptions=True)`.  The gather returns the
per-task outcomes in input order; the post-processing loop pairs
`results[i]` with `music_ids[i]` (modelled by the zip, which pairs the
same way because both lists come from the same `music_ids`) and converts
every exception into a failed `DownloadResult` carrying the error text. -/
def downloadBatchAsyncC (task : Int → Except String DownloadResult)
    (musicIds : List Int) : List DownloadResult :=
  let results := musicIds.map task
  (results.zip musicIds).map fun ri =>
    match ri.1 with
    | .ok r => r
    | .error e => mkFail ("下载音乐ID " ++ toString ri.2 ++ " 时发生异常: " ++ e)

/-- Claim C6: `download_batch_async` yields exactly one `DownloadResult`
per input id, in input order; the result at position `i` is determined by
the task outcome for `ids[i]` alone (so no sibling failure can affect it),
and a raised per-task exception is converted into a failed result carrying
the error text instead of propagating. -/
theorem download_batch_async_results (task : Int → Except String DownloadResult)
    (musicIds : List Int) :
    (downloadBatchAsyncC task musicIds).length = musicIds.length ∧
    (∀ (i : Nat) (mid : Int), musicIds[i]? = some mid →
      (downloadBatchAsyncC task musicIds)[i]? =
        some (match task mid with
          | .ok r => r
          | .error e => mkFail ("下载音乐ID " ++ toString mid ++ " 时发生异常: " ++ e))) ∧
    (∀ (i : Nat) (mid : Int) (e : String), musicIds[i]? = some mid → task mid = .error e →
      (downloadBatchAsyncC task musicIds)[i]? =
        some (mkFail ("下载音乐ID " ++ toString mid ++ " 时发生异常: " ++ e))) := by
  have hmap : downloadBatchAsyncC task musicIds =
      musicIds.map fun mid =>
        match task mid with
        | .ok r => r
        | .error e => mkFail ("下载音乐ID " ++ toString mid ++ " 时发生异常: " ++ e) := by
    have hzip : (musicIds.map task).zip musicIds =
        musicIds.map fun a => (task a, a) := by
      have h0 := List.zip_map' task id musicIds
      simpa using h0
    simp only [downloadBatchAsyncC]
    rw [hzip, List.map_map]
    rfl
  refine ⟨?_, ?_, ?_⟩
  · rw [hmap, List.length_map]
  · intro i mid hi
    rw [hmap, List.getElem?_map, hi]
    rfl
  · intro i mid e hi he
    rw [hmap, List.getElem?_map, hi]
    simp [he]

/-- The concrete task oracle of the claim C6 witness: id 7 raises, id 8
succeeds. -/
def exTaskC6 : Int → Except String DownloadResult := fun i =>
  if i = 7 then .error "boom" else .ok ⟨true, some "DL/x.mp3", 9, "", none⟩

/-- Witness for claim C6: in the batch `[7, 8]` the raising task 7 is
converted in place to a failed result and task 8's success is returned at
its position. -/
theorem download_batch_async_results_witness :
    (downloadBatchAsyncC exTaskC6 [7, 8])[0]? =
      some (mkFail "下载音乐ID 7 时发生异常: boom") ∧
    (downloadBatchAsyncC exTaskC6 [7, 8])[1]? =
      some ⟨true, some "DL/x.mp3", 9, "", none⟩ := by
  constructor
  · exact (download_batch_async_results exTaskC6 [7, 8]).2.2 0 7 "boom" rfl rfl
  · have h := (download_batch_async_results exTaskC6 [7, 8]).2.1 1 8 rfl
    simpa [exTaskC6] using h

/-! ### `MySQLChecker` (src/mysql_check.py) -/

/-- One scan step bound for `re.sub(r'[，,]/?\s*', ',', s)`: after a
matched full/half-width comma, the optional slash and the greedy
whitespace run are consumed. -/
def afterCommaMatch (rest : List Char) : List Char :=
  match rest with
  | '/' :: r => r.dropWhile pyWsChar
  | _ => rest.dropWhile pyWsChar

theorem length_dropWhile_le (p : α → Bool) (l : List α) :
    (l.dropWhile p).length ≤ l.length :=
  (List.dropWhile_sublist p).length_le

theorem afterCommaMatch_length_le (rest : List Char) :
    (afterCommaMatch rest).length ≤ rest.length := by
  unfold afterCommaMatch
  split
  · next r =>
    have h := length_dropWhile_le pyWsChar r
    simp only [List.length_cons]
    omega
  · exact length_dropWhile_le pyWsChar _

/-- Embeds `re.sub(r'[，,]/?\s*', ',', s)` (src/mysql_check.py:95): every
full/half-width comma, together with an optional following slash and any
following whitespace, becomes a single half-width comma.  The fuel is
bounded by the input length (each step consumes at least one character),
so the fallback branch is never reached from `sub1`. -/
def sub1Fuel : Nat → List Char → List Char
  | 0, l => l
  | _ + 1, [] => []
  | fuel + 1, c :: rest =>
    if c = '，' ∨ c = ',' then ',' :: sub1Fuel fuel (afterCommaMatch rest)
    else c :: sub1Fuel fuel rest

def sub1 (l : List Char) : List Char := sub1Fuel l.length l

/-- Embeds `re.sub(r'\s*/\s*', ',', s)` (src/mysql_check.py:96): a slash with any
surrounding whitespace becomes a comma.  A match starts at the current
position exactly when dropping the whitespace run reveals a slash. -/
def sub2Fuel : Nat → List Char → List Char
  | 0, l => l
  | _ + 1, [] => []
  | fuel + 1, c :: rest =>
    match (c :: rest).dropWhile pyWsChar with
    | '/' :: r => ',' :: sub2Fuel fuel (r.dropWhile pyWsChar)
    | _ => c :: sub2Fuel fuel rest

def sub2 (l : List Char) : List Char := sub2Fuel l.length l

/-- Split a character list at every character satisfying `p`, keeping
empty fragments; models `re.split` / `str.split` on a single-character
class. -/
def splitOnSep (p : Char → Bool) : List Char → List (List Char)
  | [] => [[]]
  | c :: rest =>
    match splitOnSep p rest with
    | [] => if p c then [[], []] else [[c]]
    | w :: ws => if p c then [] :: w :: ws else (c :: w) :: ws

/-- Embeds `MySQLChecker._split_artists` (src/mysql_check.py:88-101): normalize
separators, split on commas, strip whitespace, drop empty fragments and
deduplicate.  Python's `list(set(...))` returns the distinct values in an
unspecified order; the embedding fixes the first-occurrence order, and
claims about the result are stated up to set membership. -/
def splitArtistsC (s : String) : List String :=
  if s = "" then []
  else
    let normalized := sub2 (sub1 s.toList)
    ((((splitOnSep (fun c => c = ',') normalized).map pyStrip).filter
      (fun w => w ≠ [])).map List.asString).eraseDups

/-- One row of the `music_track ⋈ music_artist` join consulted by
`MySQLChecker.check_song`: track name, artist name and container suffix. -/
structure DbRow where
  trackName : String
  artistName : String
  suffix : String
deriving DecidableEq

/-- The row the SQL query returns: `LIMIT 1` keeps only the first row (in
the engine's return order, modelled by the list order) with matching
track name and an artist among the requested ones. -/
def rowMatches (songName : String) (artists : List String) (r : DbRow) : Bool :=
  r.trackName = songName && artists.contains r.artistName

/-- Embeds `MySQLChecker.check_song` (src/mysql_check.py:125-185).  `connOpen` is
the state of the externally managed connection; `db` is the query outcome
over the join rows (`Except.error` models a raised `pymysql.MySQLError`).
With no open connection the method raises `ConnectionError` (modelled by
`Except.error`); inside the query phase all errors are caught and yield
`False`. -/
def checkSongC (connOpen : Bool) (songName artistsStr : String)
    (db : Except String (List DbRow)) : Except String Bool :=
  if connOpen = false then .error "数据库连接未打开或已关闭"
  else if songName = "" ∨ artistsStr = "" then .ok false
  else
    let artists := splitArtistsC artistsStr
    if artists = [] then .ok false
    else
      match db with
      | .error _ => .ok false
      | .ok rows =>
        match rows.find? (rowMatches songName artists) with
        | none => .ok false
        | some r => .ok (strLower r.suffix ≠ "mp3")

/-- Claim C9: splitting `"周杰伦， 费玉清 / 群星"` yields exactly the set
`{"周杰伦", "费玉清", "群星"}` — the full-width comma and the
space-surrounded slash are normalized to separators, whitespace is
trimmed, empty fragments are dropped and duplicates removed. -/
theorem split_artists_scenario :
    (∀ x : String, x ∈ splitArtistsC "周杰伦， 费玉清 / 群星" ↔
      (x = "周杰伦" ∨ x = "费玉清" ∨ x = "群星")) ∧
    (splitArtistsC "周杰伦， 费玉清 / 群星").Nodup := by
  have h : splitArtistsC "周杰伦， 费玉清 / 群星" = ["周杰伦", "费玉清", "群星"] := by
    decide
  rw [h]
  constructor
  · intro x
    simp
  · decide

/-! ### `NavidromeClient` (src/navidrome.py) -/

/-- One candidate song from the Subsonic `search2` response; `suffix` is
`none` when the key is missing, `size` is the already-parsed byte count
(`_get_file_size` falls back to 0 on parse failure). -/
structure NavCandidate where
  title : String
  artist : String
  album : String
  suffix : Option String
  mimeType : String
  size : Nat
deriving DecidableEq

/-- The dictionary returned by `navidrome_song_exists`. -/
structure NavResult where
  existsFlag : Bool
  album : String
  artists : String
  fileType : String
  fileSize : Nat
  fileSizeFormatted : String
  isMp3 : Bool
deriving DecidableEq

/-- Embeds `NavidromeClient._get_empty_result` (src/navidrome.py:14-23). -/
def emptyNavResult : NavResult := ⟨false, "", "", "", 0, "", false⟩

/-- Environment of one `navidrome_song_exists` call: configuration plus
the HTTP search outcome (`Except.error` models any raised exception —
transport error, HTTP error or JSON failure).  `fmtSize` abstracts the
float-formatting helper `_format_file_size`. -/
structure NavEnv where
  host : String
  user : String
  password : String
  resp : Except String (List NavCandidate)
  fmtSize : Nat → String

/-- The mime-type fallback of `NavidromeClient._get_file_type`
(src/navidrome.py:39-53). -/
def getFileTypeMime (c : NavCandidate) : String :=
  let mt := strLower c.mimeType
  if mt = "audio/flac" then "flac"
  else if mt = "audio/mpeg" then "mp3"
  else if mt = "audio/wav" then "wav"
  else if mt = "audio/aac" then "aac"
  else if mt = "audio/ogg" then "ogg"
  else if mt = "audio/x-m4a" then "m4a"
  else "unknown"

/-- Embeds `NavidromeClient._get_file_type` (src/navidrome.py:26-53): prefer a
present, non-empty `suffix` (stripped of whitespace and leading dots,
lower-cased), else map the mime type, else `"unknown"`. -/
def getFileType (c : NavCandidate) : String :=
  match c.suffix with
  | some sfx =>
    if sfx = "" then getFileTypeMime c
    else
      let s := strLower ((pyStrip sfx.toList).dropWhile (fun ch => ch = '.')).asString
      if s = "" then getFileTypeMime c else s
  | none => getFileTypeMime c

/-- The separator class of `re.split(r'[\/,;]', ...)`. -/
def navSepChar (c : Char) : Bool := c = '/' ∨ c = ',' ∨ c = ';'

/-- Embeds `[a.strip().lower() for a in re.split(r'[\/,;]', s) if a.strip()]` as
used for both the requested artists and the candidate artist tokens
(src/navidrome.py:154,171). -/
def navTokenize (s : String) : List String :=
  (((splitOnSep navSepChar s.toList).map pyStrip).filter (fun w => w ≠ [])).map
    fun w => strLower w.asString

/-- Embeds `str(item.get('artist', "")).strip()` — the candidate's full artist
string. -/
def navArtistFull (c : NavCandidate) : String := (pyStrip c.artist.toList).asString

/-- Embeds `nav_artist_full.lower()`. -/
def navArtistLower (c : NavCandidate) : String := strLower (navArtistFull c)

/-- The candidate's normalized title `str(item.get('title',"")).strip().lower()`. -/
def navTitleOf (c : NavCandidate) : String := strLower (pyStrip c.title.toList).asString

/-- The artist-match step (src/navidrome.py:169-179): any requested
artist is a substring of the candidate artist string, or any candidate
artist token is a substring of a requested artist; with no requested
artist, any non-empty candidate artist matches. -/
def navArtistMatch (inputArtists : List String) (c : NavCandidate) : Bool :=
  match inputArtists with
  | [] => pyStrip (navArtistLower c).toList ≠ []
  | _ =>
    inputArtists.any fun ia =>
      strContains (navArtistLower c) ia ||
        (navTokenize (navArtistLower c)).any fun nd => strContains ia nd

/-- The full per-candidate filter of the scanning loop: exact normalized
title match, artist match, and a non-MP3 file type. -/
def navPasses (titleTarget : String) (inputArtists : List String)
    (c : NavCandidate) : Bool :=
  navTitleOf c = titleTarget && navArtistMatch inputArtists c &&
    !(strLower (getFileType c) = "mp3")

/-- The candidate loop of `navidrome_song_exists`
(src/navidrome.py:156-210): skip on title mismatch, artist mismatch, or
MP3 format (the undesired format), and return the first candidate passing
all three checks. -/
def navScan (titleTarget : String) (inputArtists : List String) :
    List NavCandidate → Option NavCandidate
  | [] => none
  | c :: rest =>
    if navTitleOf c ≠ titleTarget then navScan titleTarget inputArtists rest
    else if navArtistMatch inputArtists c = false then navScan titleTarget inputArtists rest
    else if strLower (getFileType c) = "mp3" then navScan titleTarget inputArtists rest
    else some c

theorem navScan_eq_find (titleTarget : String) (inputArtists : List String)
    (l : List NavCandidate) :
    navScan titleTarget inputArtists l = l.find? (navPasses titleTarget inputArtists) := by
  induction l with
  | nil => rfl
  | cons c rest ih =>
    simp only [navScan, List.find?, navPasses]
    by_cases h1 : navTitleOf c = titleTarget
    · by_cases h2 : navArtistMatch inputArtists c = false
      · simp [h1, h2, ih]
      · by_cases h3 : strLower (getFileType c) = "mp3"
        · simp [h1, h2, h3, ih]
        · have h2' : navArtistMatch inputArtists c = true := by
            cases hb : navArtistMatch inputArtists c
            · exact absurd hb h2
            · rfl
          simp [h1, h2', h3, ih]
    · simp [h1, ih]

/-- Embeds `re.sub(r'^https?://', '', s)` (src/navidrome.py:105). -/
def stripHttpScheme (s : String) : String :=
  if "https://".toList.isPrefixOf s.toList then (s.toList.drop 8).asString
  else if "http://".toList.isPrefixOf s.toList then (s.toList.drop 7).asString
  else s

/-- Embeds `NavidromeClient.navidrome_song_exists` (src/navidrome.py:92-220).
Configuration gaps (empty host, empty cleaned host, missing credentials)
and every raised exception produce the empty (non-existent) result; the
candidate list is scanned for the first passing non-MP3 match, whose
album/artist/type/size fields populate the successful record. -/
def navidromeSongExists (env : NavEnv) (title artists album : String) : NavResult :=
  if env.host = "" then emptyNavResult
  else
    let cleanHost := stripHttpScheme (pyStrip env.host.toList).asString
    if cleanHost = "" then emptyNavResult
    else if env.user = "" ∨ env.password = "" then emptyNavResult
    else
      match env.resp with
      | .error _ => emptyNavResult
      | .ok candidates =>
        let titleTarget := strLower (pyStrip title.toList).asString
        let inputArtists := navTokenize artists
        match navScan titleTarget inputArtists candidates with
        | none => emptyNavResult
        | some c =>
          let ft := getFileType c
          let fmtd := if c.size ≠ 0 then env.fmtSize c.size else ""
          ⟨true, (pyStrip c.album.toList).asString, navArtistFull c, ft, c.size, fmtd, false⟩

/-- Follows the spec's words (refinement comparison for claim C1): an
Existence Checker should report existence exactly when some matching
candidate in a non-undesired (non-MP3) format occurs anywhere among the
candidates. -/
def specUndesiredScan (songName : String) (artists : List String) (rows : List DbRow) :
    Bool :=
  rows.any fun r => rowMatches songName artists r && !(strLower r.suffix = "mp3")

/-- The database rows of the claim C1 counterexample: the first matching
row is an MP3, a later matching row is a FLAC. -/
def exRowsC1 : List DbRow :=
  [⟨"千里之外", "周杰伦", "mp3"⟩, ⟨"千里之外", "周杰伦", "flac"⟩]

/-- Claim C1 (counterexample): `MySQLChecker.check_song` queries with
`LIMIT 1`, so when the first matching row is in the undesired MP3 format
it reports non-existence immediately instead of continuing to scan the
remaining candidates — here a matching FLAC row exists, so the claim
says the checker must report existence, but it returns `False`. -/
theorem mysql_undesired_first_row_counterexample :
    checkSongC true "千里之外" "周杰伦" (Except.ok exRowsC1) = Except.ok false ∧
    specUndesiredScan "千里之外" (splitArtistsC "周杰伦") exRowsC1 = true := by
  constructor
  · rfl
  · decide

/-- Claim C1 (amended): the Navidrome checker does skip undesired-format
(MP3) matches and keeps scanning — it reports existence exactly when some
candidate matches title and artist in a non-MP3 format.  The MySQL
checker never reports existence on an MP3 match, but examines only the
first matching row of the query (`LIMIT 1`): it reports existence exactly
when that first matching row is non-MP3, without scanning further
candidates. -/
theorem existence_checker_undesired_amended (env : NavEnv)
    (title artists album : String) (cands : List NavCandidate)
    (rows : List DbRow) (songName artistsStr : String)
    (h1 : env.host ≠ "")
    (h2 : stripHttpScheme (pyStrip env.host.toList).asString ≠ "")
    (h3 : env.user ≠ "") (h4 : env.password ≠ "")
    (h5 : env.resp = Except.ok cands)
    (h6 : songName ≠ "") (h7 : artistsStr ≠ "")
    (h8 : splitArtistsC artistsStr ≠ []) :
    ((navidromeSongExists env title artists album).existsFlag = true ↔
      ∃ c ∈ cands, navPasses (strLower (pyStrip title.toList).asString)
        (navTokenize artists) c = true) ∧
    (checkSongC true songName artistsStr (Except.ok rows) = Except.ok true ↔
      ∃ r, rows.find? (rowMatches songName (splitArtistsC artistsStr)) = some r ∧
        strLower r.suffix ≠ "mp3") := by
  constructor
  · simp only [navidromeSongExists]
    rw [if_neg h1, if_neg h2, if_neg (by simp [h3, h4]), h5]
    simp only [navScan_eq_find]
    cases hf : cands.find? (navPasses (strLower (pyStrip title.toList).asString)
        (navTokenize artists)) with
    | none =>
      simp only [hf, emptyNavResult]
      constructor
      · intro h; exact absurd h (by decide)
      · rintro ⟨c, hc, hp⟩
        exact absurd hp (by simpa using List.find?_eq_none.mp hf c hc)
    | some c =>
      simp only [hf]
      constructor
      · intro _
        exact ⟨c, List.mem_of_find?_eq_some hf, List.find?_some hf⟩
      · intro _; trivial
  · simp only [checkSongC]
    rw [if_neg (by decide), if_neg (by simp [h6, h7]), if_neg h8]
    cases hf : rows.find? (rowMatches songName (splitArtistsC artistsStr)) with
    | none =>
      constructor
      · intro h; simp at h
      · rintro ⟨r, hr, _⟩
        exact Option.noConfusion hr
    | some r =>
      constructor
      · intro h
        refine ⟨r, rfl, ?_⟩
        simp only [Except.ok.injEq] at h
        simpa using h
      · rintro ⟨r2, hr2, hs⟩
        cases hr2
        simp [hs]

/-- Candidate, environment and rows for the claim C1 witness. -/
def wNavCandC1 : NavCandidate := ⟨"Song", "Artist", "Alb", some "flac", "", 100⟩

def wNavEnvC1 : NavEnv := ⟨"example.com", "u", "p", .ok [wNavCandC1], fun _ => ""⟩

def wRowsC1 : List DbRow := [⟨"s", "a", "flac"⟩]

/-- Witness for the amended claim C1: a single FLAC candidate/row makes
both checkers report existence. -/
theorem existence_checker_undesired_amended_witness :
    (navidromeSongExists wNavEnvC1 "Song" "Artist" "").existsFlag = true ∧
    checkSongC true "s" "a" (Except.ok wRowsC1) = Except.ok true := by
  have h := existence_checker_undesired_amended wNavEnvC1 "Song" "Artist" "" [wNavCandC1]
    wRowsC1 "s" "a" (by decide) (by decide) (by decide) (by decide) rfl (by decide)
    (by decide) (by decide)
  exact ⟨h.1.mpr ⟨wNavCandC1, by decide, by decide⟩,
         h.2.mpr ⟨⟨"s", "a", "flac"⟩, by decide, by decide⟩⟩

/-- Claim C8 (counterexample): calling `MySQLChecker.check_song` without
an open connection raises `ConnectionError` — an exception propagated to
the caller, contrary to the claim that no input makes an Existence
Checker propagate an exception. -/
theorem check_song_closed_connection_counterexample :
    checkSongC false "海阔天空" "Beyond" (Except.ok []) =
      Except.error "数据库连接未打开或已关闭" := rfl

/-- Claim C8 (amended): the Navidrome checker catches every backend error
and reports non-existence for every input, and `check_song` with an open
connection catches query errors and reports non-existence; but
`check_song` invoked without an open connection raises `ConnectionError`
instead of failing open. -/
theorem existence_checker_fail_open_amended (env : NavEnv)
    (title artists album e : String) (songName artistsStr qerr : String)
    (db : Except String (List DbRow)) :
    (env.resp = Except.error e →
      navidromeSongExists env title artists album = emptyNavResult) ∧
    checkSongC true songName artistsStr (Except.error qerr) = Except.ok false ∧
    checkSongC false songName artistsStr db = Except.error "数据库连接未打开或已关闭" := by
  refine ⟨?_, ?_, ?_⟩
  · intro h
    simp only [navidromeSongExists, h]
    split_ifs <;> rfl
  · simp only [checkSongC]
    rw [if_neg (by decide)]
    by_cases h1 : songName = "" ∨ artistsStr = ""
    · rw [if_pos h1]
    · rw [if_neg h1]
      by_cases h2 : splitArtistsC artistsStr = []
      · simp [h2]
      · simp [h2]
  · simp only [checkSongC]
    simp

/-- Environment with a failing search backend for the claim C8 witness. -/
def wNavEnvC8 : NavEnv := ⟨"example.com", "u", "p", .error "timeout", fun _ => ""⟩

/-- Witness for the amended claim C8 at concrete failing backends. -/
theorem existence_checker_fail_open_amended_witness :
    navidromeSongExists wNavEnvC8 "Song" "Artist" "" = emptyNavResult ∧
    checkSongC true "海阔天空" "Beyond" (Except.error "query failed") = Except.ok false := by
  have h := existence_checker_fail_open_amended wNavEnvC8 "Song" "Artist" "" "timeout"
    "海阔天空" "Beyond" "query failed" (Except.ok [])
  exact ⟨h.1 rfl, h.2.1⟩

end AutoMusicDown
